import Mathlib

/-!
Shallow embedding of the NES emulator core (`nes_core`): the PPU
(`src/nes_core/src/ppu.rs`), the bus (`src/nes_core/src/bus.rs`), the iNES
ROM loader (`src/nes_core/src/rom.rs`) and the opcode dispatch table
(`src/nes_core/src/opcode.rs`).

Conventions of the embedding:
* `u8`/`u16`/`usize` values are `Nat`; wrapping arithmetic is written with an
  explicit `% 256` / `% 65536`, and `as u8` style truncating casts with the
  mask the source uses (`&&& 0xff`, ...).
* Rust panics (explicit `panic!` arms as well as out-of-bounds slice and
  array indexing) are modelled by returning `none` from an `Option`-valued
  function.
* Fixed-size arrays (`[u8; N]`) are `Array Nat`; `Vec<u8>` is `List Nat`.
  Every indexing operation performs the bounds check Rust performs
  implicitly, and fails with `none` where Rust would panic.
* The member functions keep the Rust names.
-/

set_option maxRecDepth 10000

/-- Modelled from the spec: the `Mirroring` enum is consumed by the PPU
(`use crate::rom::Mirroring`) but its definition is absent from the `src`
snapshot of `rom.rs`.  The spec's data model gives the three variants
Horizontal, Vertical and FourScreen. -/
inductive Mirroring where
  | Horizontal
  | Vertical
  | FourScreen
deriving DecidableEq, Repr

/-- PPU address register (`AddressRegister` in ppu.rs): high byte, low byte,
and the latch selecting which half the next write goes to. -/
structure AddressRegister where
  value_high : Nat
  value_low : Nat
  hi_ptr : Bool
deriving DecidableEq, Repr

/-- AddressRegister::new -/
def AddressRegister.new : AddressRegister :=
  { value_high := 0, value_low := 0, hi_ptr := true }

/-- AddressRegister::get: `((high as u16) << 8) | (low as u16)`. -/
def AddressRegister.get (r : AddressRegister) : Nat :=
  (r.value_high <<< 8) ||| r.value_low

/-- AddressRegister::set: `high = (data >> 8) as u8; low = (data & 0x00ff) as u8`. -/
def AddressRegister.set (r : AddressRegister) (data : Nat) : AddressRegister :=
  { r with value_high := (data >>> 8) &&& 0xff, value_low := data &&& 0xff }

/-- AddressRegister::update: write one byte to the half selected by the
latch, wrap the 14-bit address, toggle the latch. -/
def AddressRegister.update (r : AddressRegister) (data : Nat) : AddressRegister :=
  let r1 := if r.hi_ptr then { r with value_high := data }
            else { r with value_low := data }
  let r2 := if r1.get > 0x3fff then r1.set (r1.get &&& 0x3fff) else r1
  { r2 with hi_ptr := !r2.hi_ptr }

/-- AddressRegister::increment: `low = low.wrapping_add(inc)`, carry into the
high byte, wrap the 14-bit address. -/
def AddressRegister.increment (r : AddressRegister) (inc : Nat) : AddressRegister :=
  let lo := r.value_low
  let r1 := { r with value_low := (r.value_low + inc) % 256 }
  let r2 := if lo > r1.value_low
            then { r1 with value_high := (r1.value_high + 1) % 256 }
            else r1
  if r2.get > 0x3fff then r2.set (r2.get &&& 0x3fff) else r2

/-- AddressRegister::reset_latch -/
def AddressRegister.reset_latch (r : AddressRegister) : AddressRegister :=
  { r with hi_ptr := true }

/-- PPU control register (`ControlRegister` in ppu.rs), one field per bit
group of the 0x2000 register. -/
structure ControlRegister where
  nametable : Nat
  vram_add_increment : Bool
  sprite_pattern_address : Bool
  background_pattern_address : Bool
  sprite_size : Bool
  master_lave_select : Bool
  generate_nmi : Bool
deriving DecidableEq, Repr

/-- ControlRegister::new (= Default::default(): everything zero / false). -/
def ControlRegister.new : ControlRegister :=
  { nametable := 0, vram_add_increment := false, sprite_pattern_address := false,
    background_pattern_address := false, sprite_size := false,
    master_lave_select := false, generate_nmi := false }

/-- ControlRegister::vram_address_increment: 1 when bit2 clear, 32 when set. -/
def ControlRegister.vram_address_increment (c : ControlRegister) : Nat :=
  if !c.vram_add_increment then 1 else 32

/-- ControlRegister::update: decode the control byte into the bit fields. -/
def ControlRegister.update (c : ControlRegister) (data : Nat) : ControlRegister :=
  { c with
    nametable := data &&& 0x3,
    vram_add_increment := data &&& 0x4 == 0x4,
    sprite_pattern_address := data &&& 0x8 == 0x8,
    background_pattern_address := data &&& 0x10 == 0x10,
    sprite_size := data &&& 0x20 == 0x20,
    master_lave_select := data &&& 0x40 == 0x40,
    generate_nmi := data &&& 0x80 == 0x80 }

/-- ControlRegister::read_generate_nmi -/
def ControlRegister.read_generate_nmi (c : ControlRegister) : Bool :=
  c.generate_nmi

/-- PPU status register (`StatusRegister` in ppu.rs). -/
structure StatusRegister where
  ppu_open_bus : Nat
  sprite_overflow : Bool
  sprite_0_hit : Bool
  vertical_blank : Bool
deriving DecidableEq, Repr

/-- StatusRegister::new (Default::default()). -/
def StatusRegister.new : StatusRegister :=
  { ppu_open_bus := 0, sprite_overflow := false, sprite_0_hit := false,
    vertical_blank := false }

/-- StatusRegister::is_vertical_blank -/
def StatusRegister.is_vertical_blank (s : StatusRegister) : Bool :=
  s.vertical_blank

/-- StatusRegister::set_vertical_blank -/
def StatusRegister.set_vertical_blank (s : StatusRegister) : StatusRegister :=
  { s with vertical_blank := true }

/-- StatusRegister::reset_vertical_blank -/
def StatusRegister.reset_vertical_blank (s : StatusRegister) : StatusRegister :=
  { s with vertical_blank := false }

/-- The register file of the PPU (`PpuRegister` in ppu.rs). -/
structure PpuRegister where
  ppu_control : ControlRegister
  ppu_mask : Nat
  ppu_status : StatusRegister
  oam_address : Nat
  oam_data : Nat
  ppu_scroll : Nat
  ppu_address : AddressRegister
  ppu_data : Nat
deriving DecidableEq, Repr

/-- PpuRegister::default() -/
def PpuRegister.default : PpuRegister :=
  { ppu_control := ControlRegister.new, ppu_mask := 0,
    ppu_status := StatusRegister.new, oam_address := 0, oam_data := 0,
    ppu_scroll := 0, ppu_address := AddressRegister.new, ppu_data := 0 }

/-- The PPU (`Ppu` in ppu.rs): character ROM, 32-byte palette, 2 KiB VRAM,
256-byte OAM, registers, the buffered-read byte, the scanline/cycle cursor
and the NMI latch. -/
structure Ppu where
  charactor_rom : List Nat
  palette_table : Array Nat
  vram : Array Nat
  oam_data : Array Nat
  mirroring : Mirroring
  register : PpuRegister
  internal_data_buf : Nat
  scanline : Nat
  cycles : Nat
  nmi_interrupt : Bool
deriving DecidableEq, Repr

/-- Ppu::new -/
def Ppu.new (chr_rom_data : List Nat) (mirroring : Mirroring) : Ppu :=
  { charactor_rom := chr_rom_data,
    palette_table := mkArray 0x20 0,
    vram := mkArray 0x800 0,
    oam_data := mkArray 0x100 0,
    mirroring := mirroring,
    register := PpuRegister.default,
    internal_data_buf := 0,
    scanline := 0,
    cycles := 0,
    nmi_interrupt := false }

/-- Ppu::tick: add the PPU cycles; on crossing 341 advance one scanline; at
scanline 241 set vblank and, when NMI generation is enabled, latch the NMI;
at scanline 262 wrap to 0, clear the latch and vblank, and report that a
frame completed (the returned Bool). -/
def Ppu.tick (ppu : Ppu) (cycles : Nat) : Bool × Ppu :=
  let ppu : Ppu := { ppu with cycles := ppu.cycles + cycles }
  if ppu.cycles ≥ 341 then
    let ppu : Ppu := { ppu with cycles := ppu.cycles - 341, scanline := ppu.scanline + 1 }
    let ppu : Ppu :=
      if ppu.scanline = 241 then
        let ppu : Ppu := { ppu with register.ppu_status := ppu.register.ppu_status.set_vertical_blank }
        if ppu.register.ppu_control.read_generate_nmi then
          { ppu with nmi_interrupt := true }
        else ppu
      else ppu
    if ppu.scanline ≥ 262 then
      (true, { ppu with scanline := 0, nmi_interrupt := false,
                        register.ppu_status := ppu.register.ppu_status.reset_vertical_blank })
    else
      (false, ppu)
  else
    (false, ppu)

/-- Ppu::poll_nmi_status: returns the generate-NMI bit of the control
register (not the `nmi_interrupt` latch), and mutates nothing. -/
def Ppu.poll_nmi_status (ppu : Ppu) : Bool :=
  ppu.register.ppu_control.read_generate_nmi

/-- Ppu::poll_nmi_interrupt: returns the NMI latch (never called by the Bus). -/
def Ppu.poll_nmi_interrupt (ppu : Ppu) : Bool :=
  ppu.nmi_interrupt

/-- Ppu::write_to_ppu_address -/
def Ppu.write_to_ppu_address (ppu : Ppu) (value : Nat) : Ppu :=
  { ppu with register.ppu_address := ppu.register.ppu_address.update value }

/-- Ppu::write_to_control: update the control register; when the generate-NMI
bit goes 0 to 1 during vblank, latch an NMI. -/
def Ppu.write_to_control (ppu : Ppu) (value : Nat) : Ppu :=
  let before_nmi_status := ppu.register.ppu_control.read_generate_nmi
  let ppu := { ppu with register.ppu_control := ppu.register.ppu_control.update value }
  if !before_nmi_status && ppu.register.ppu_control.read_generate_nmi
      && ppu.register.ppu_status.is_vertical_blank then
    { ppu with nmi_interrupt := true }
  else ppu

/-- Ppu::mirror_vram_address: fold 0x3000-0x3eff onto 0x2000-0x2eff, then
fold the four logical name tables onto the 2 KiB VRAM according to the
mirroring mode. -/
def Ppu.mirror_vram_address (ppu : Ppu) (address : Nat) : Nat :=
  let mirrored_vram := address &&& 0x2fff
  let vram_index := mirrored_vram - 0x2000
  let name_table := vram_index / 0x400
  match ppu.mirroring, name_table with
  | Mirroring.Vertical, 2 => vram_index - 0x800
  | Mirroring.Vertical, 3 => vram_index - 0x800
  | Mirroring.Horizontal, 2 => vram_index - 0x400
  | Mirroring.Horizontal, 1 => vram_index - 0x400
  | Mirroring.Horizontal, 3 => vram_index - 0x800
  | _, _ => vram_index

/-- Ppu::increment_vram_address -/
def Ppu.increment_vram_address (ppu : Ppu) : Ppu :=
  { ppu with register.ppu_address :=
      ppu.register.ppu_address.increment ppu.register.ppu_control.vram_address_increment }

/-- Ppu::write_to_data: write through the address register, incrementing it.
The palette arm indexes `palette_table[address - 0x3f00]` without any modulo
or aliasing, so addresses 0x3f20-0x3fff index out of bounds (`none`); the
0x3000-0x3eff arm and the wildcard arm are `panic!` in the source. -/
def Ppu.write_to_data (ppu : Ppu) (value : Nat) : Option Ppu :=
  let address := ppu.register.ppu_address.get
  let ppu := ppu.increment_vram_address
  if address ≤ 0x1fff then
    if address < ppu.charactor_rom.length then
      some { ppu with charactor_rom := ppu.charactor_rom.set address value }
    else none
  else if address ≤ 0x2fff then
    let i := ppu.mirror_vram_address address
    if h : i < ppu.vram.size then
      some { ppu with vram := ppu.vram.set ⟨i, h⟩ value }
    else none
  else if address ≤ 0x3eff then
    none
  else if address ≤ 0x3fff then
    let i := address - 0x3f00
    if h : i < ppu.palette_table.size then
      some { ppu with palette_table := ppu.palette_table.set ⟨i, h⟩ value }
    else none
  else none

/-- Ppu::read_data: buffered read through the address register.  Character
ROM and VRAM reads return the old buffer and refill it; palette reads return
`palette_table[address - 0x3f00]` directly and leave the buffer alone
(out of bounds for 0x3f20-0x3fff); 0x3000-0x3eff and addresses above 0x3fff
are `panic!` arms. -/
def Ppu.read_data (ppu : Ppu) : Option (Nat × Ppu) :=
  let address := ppu.register.ppu_address.get
  let ppu := ppu.increment_vram_address
  if address ≤ 0x1fff then
    match ppu.charactor_rom.get? address with
    | some v => some (ppu.internal_data_buf, { ppu with internal_data_buf := v })
    | none => none
  else if address ≤ 0x2fff then
    match ppu.vram.get? (ppu.mirror_vram_address address) with
    | some v => some (ppu.internal_data_buf, { ppu with internal_data_buf := v })
    | none => none
  else if address ≤ 0x3eff then
    none
  else if address ≤ 0x3fff then
    match ppu.palette_table.get? (address - 0x3f00) with
    | some v => some (v, ppu)
    | none => none
  else none

/-- Ppu::read_background_pattern_address -/
def Ppu.read_background_pattern_address (ppu : Ppu) : Nat :=
  if ppu.register.ppu_control.background_pattern_address then 0x1000 else 0x0000

/-- The bus (`Bus` in bus.rs): 2 KiB WRAM, the PPU, the program ROM bytes and
a CPU cycle counter.  The struct has no frame-callback field. -/
structure Bus where
  wram : Array Nat
  ppu : Ppu
  program : List Nat
  cycles : Nat
deriving DecidableEq, Repr

/-- Bus::tick: add the CPU cycles to the counter and tick the PPU with
`cycles * 3`, a u8 multiplication (hence the `% 256`); the Bool returned by
Ppu::tick (frame completed) is discarded. -/
def Bus.tick (bus : Bus) (cycles : Nat) : Bus :=
  let bus := { bus with cycles := bus.cycles + cycles }
  { bus with ppu := (bus.ppu.tick ((cycles * 3) % 256)).2 }

/-- Bus::read_program_rom_byte: subtract the 0x8000 base and mirror a 16 KiB
ROM; `program[address]` panics (`none`) when the index is out of range. -/
def Bus.read_program_rom_byte (bus : Bus) (address : Nat) : Option Nat :=
  let address := address - 0x8000
  let address :=
    if bus.program.length = 0x4000 ∧ 0x4000 ≤ address then address % 0x4000
    else address
  bus.program.get? address

/-- Bus::read_memory_byte, with explicit fuel for the single self-call the
0x2008-0x3fff mirroring arm performs (the masked address always lands in
0x2000-0x2007, so fuel 2 suffices; see `Bus.read_memory_byte`).
Arm by arm: WRAM mirrored by `&&& 0x7ff`; reads of the write-only registers
0x2000/0x2001/0x2003/0x2005/0x2006 and of 0x4014 `panic!`; 0x2007 is the PPU
data read; 0x2008-0x3fff recurses on `address &&& 0x2007`; 0x8000-0xffff is
program ROM; everything else logs and returns 0. -/
def Bus.read_memory_byte_fuel : Nat → Bus → Nat → Option (Nat × Bus)
  | 0, _, _ => none
  | fuel + 1, bus, address =>
    if address ≤ 0x1fff then
      (bus.wram.get? (address &&& 0x7ff)).map fun v => (v, bus)
    else if address = 0x2000 ∨ address = 0x2001 ∨ address = 0x2003
        ∨ address = 0x2005 ∨ address = 0x2006 ∨ address = 0x4014 then
      none
    else if address = 0x2007 then
      (bus.ppu.read_data).map fun r => (r.1, { bus with ppu := r.2 })
    else if 0x2008 ≤ address ∧ address ≤ 0x3fff then
      Bus.read_memory_byte_fuel fuel bus (address &&& 0x2007)
    else if 0x8000 ≤ address ∧ address ≤ 0xffff then
      (bus.read_program_rom_byte address).map fun v => (v, bus)
    else
      some (0, bus)

/-- Bus::read_memory_byte (see `Bus.read_memory_byte_fuel`). -/
def Bus.read_memory_byte (bus : Bus) (address : Nat) : Option (Nat × Bus) :=
  Bus.read_memory_byte_fuel 2 bus address

/-- Bus::read_memory_word: two byte reads, little endian, for 0x0000-0x1ffe
and 0x8000-0xfffe; every other address logs and returns 0 with no access. -/
def Bus.read_memory_word (bus : Bus) (address : Nat) : Option (Nat × Bus) :=
  if address ≤ 0x1ffe then
    let address := address &&& 0x7ff
    match bus.read_memory_byte address with
    | some (lo, bus) =>
      match bus.read_memory_byte (address + 1) with
      | some (hi, bus) => some (lo + (hi <<< 8), bus)
      | none => none
    | none => none
  else if 0x8000 ≤ address ∧ address ≤ 0xfffe then
    match bus.read_program_rom_byte address, bus.read_program_rom_byte (address + 1) with
    | some lo, some hi => some (lo + (hi <<< 8), bus)
    | _, _ => none
  else
    some (0, bus)

/-- Bus::write_memory_byte with the same fuel device as the byte read (the
0x2008-0x3fff arm recurses once on `address &&& 0x2007`).  Writes to
0x8000-0xffff `panic!` ("ROM is readonly"); unmatched addresses are ignored. -/
def Bus.write_memory_byte_fuel : Nat → Bus → Nat → Nat → Option Bus
  | 0, _, _, _ => none
  | fuel + 1, bus, address, value =>
    if address ≤ 0x1fff then
      let i := address &&& 0x7ff
      if h : i < bus.wram.size then
        some { bus with wram := bus.wram.set ⟨i, h⟩ value }
      else none
    else if address = 0x2000 then
      some { bus with ppu := bus.ppu.write_to_control value }
    else if address = 0x2006 then
      some { bus with ppu := bus.ppu.write_to_ppu_address value }
    else if address = 0x2007 then
      (bus.ppu.write_to_data value).map fun p => { bus with ppu := p }
    else if 0x2008 ≤ address ∧ address ≤ 0x3fff then
      Bus.write_memory_byte_fuel fuel bus (address &&& 0x2007) value
    else if 0x8000 ≤ address ∧ address ≤ 0xffff then
      none
    else
      some bus

/-- Bus::write_memory_byte (see `Bus.write_memory_byte_fuel`). -/
def Bus.write_memory_byte (bus : Bus) (address : Nat) (value : Nat) : Option Bus :=
  Bus.write_memory_byte_fuel 2 bus address value

/-- Bus::poll_nmi_status: delegates to Ppu::poll_nmi_status, hence returns
the control register's generate-NMI bit; being `&self`, it mutates nothing. -/
def Bus.poll_nmi_status (bus : Bus) : Bool :=
  bus.ppu.poll_nmi_status

/-- Flags byte 6 of the iNES header (`Flags6` in rom.rs). -/
structure Flags6 where
  mirroring : Bool
  is_persistent_memory : Bool
  is_trainer : Bool
  ignore_mirroring : Bool
  lower_mapper : Nat
deriving DecidableEq, Repr

/-- Flags6::new -/
def Flags6.new (data : Nat) : Flags6 :=
  { mirroring := data &&& 0x01 == 0x01,
    is_persistent_memory := data &&& 0x02 == 0x02,
    is_trainer := data &&& 0x04 == 0x04,
    ignore_mirroring := data &&& 0x08 == 0x08,
    lower_mapper := data >>> 4 }

/-- Flags byte 7 of the iNES header (`Flags7` in rom.rs). -/
structure Flags7 where
  vs_unisystem : Bool
  play_choice_10 : Bool
  is_nes_2_0 : Bool
  upper_mapper : Nat
deriving DecidableEq, Repr

/-- Flags7::new -/
def Flags7.new (data : Nat) : Flags7 :=
  { vs_unisystem := data &&& 0x01 == 0x01,
    play_choice_10 := data &&& 0x02 == 0x02,
    is_nes_2_0 := data &&& 0x08 == 0x08,
    upper_mapper := data >>> 4 }

/-- Flags byte 8 of the iNES header (`Flags8` in rom.rs). -/
structure Flags8 where
  prg_ram_size : Nat
deriving DecidableEq, Repr

/-- Flags8::new -/
def Flags8.new (data : Nat) : Flags8 :=
  { prg_ram_size := data }

/-- Flags byte 9 of the iNES header (`Flags9` in rom.rs). -/
structure Flags9 where
  tv_system : Bool
deriving DecidableEq, Repr

/-- Flags9::new -/
def Flags9.new (data : Nat) : Flags9 :=
  { tv_system := data &&& 0x01 == 0x01 }

/-- Flags byte 10 of the iNES header (`Flags10` in rom.rs). -/
structure Flags10 where
  tv_system : Nat
  is_not_prg_ram : Bool
  is_bus_conflicts : Bool
deriving DecidableEq, Repr

/-- Flags10::new -/
def Flags10.new (data : Nat) : Flags10 :=
  { tv_system := data &&& 0x02,
    is_not_prg_ram := data &&& 0x10 == 0x10,
    is_bus_conflicts := data &&& 0x20 == 0x20 }

/-- The 16-byte iNES header (`Header` in rom.rs). -/
structure Header where
  magic : List Nat
  prg_rom_size : Nat
  chr_rom_size : Nat
  flags6 : Flags6
  flags7 : Flags7
  flags8 : Flags8
  flags9 : Flags9
  flags10 : Flags10
  unused : List Nat
deriving DecidableEq, Repr

/-- Header::new: decode the 16 header bytes.  (The Rust field holding bytes
0-3 is called `constant`; it is named `magic` here because `constant` has a
reserved flavour in Lean.)  The caller guarantees 16 bytes. -/
def Header.new (header_data : List Nat) : Header :=
  { magic := header_data.take 4,
    prg_rom_size := header_data.getD 4 0,
    chr_rom_size := header_data.getD 5 0,
    flags6 := Flags6.new (header_data.getD 6 0),
    flags7 := Flags7.new (header_data.getD 7 0),
    flags8 := Flags8.new (header_data.getD 8 0),
    flags9 := Flags9.new (header_data.getD 9 0),
    flags10 := Flags10.new (header_data.getD 10 0),
    unused := (header_data.drop 11).take 5 }

/-- A parsed cartridge (`Rom` in rom.rs). -/
structure Rom where
  header : Header
  program : List Nat
  charactor : List Nat
deriving DecidableEq, Repr

/-- Rom::new: copy the 16 header bytes (panics, i.e. `none`, on shorter
input), then slice the program and character payloads at the sizes the
header declares (panics when the data is shorter than the declared sizes).
There is no check of the magic bytes and no check of the mapper number. -/
def Rom.new (rom_data : List Nat) : Option Rom :=
  if rom_data.length < 16 then none
  else
    let header := Header.new (rom_data.take 16)
    let program_start := 16
    let program_end := program_start + 0x4000 * header.prg_rom_size
    if rom_data.length < program_end then none
    else
      let character_start := program_end
      let character_end := character_start + 0x2000 * header.chr_rom_size
      if rom_data.length < character_end then none
      else
        some { header := header,
               program := (rom_data.drop program_start).take (program_end - program_start),
               charactor := (rom_data.drop character_start).take (character_end - character_start) }

/-- The 6502 instruction mnemonics of opcode.rs (official set only). -/
inductive Instruction where
  | ADC | AND | ASL | BCC | BCS | BEQ | BIT | BMI | BNE | BPL | BRK | BVC
  | BVS | CLC | CLD | CLI | CLV | CMP | CPX | CPY | DEC | DEX | DEY | EOR
  | INC | INX | INY | JMP | JSR | LDA | LDX | LDY | LSR | NOP | ORA | PHA
  | PHP | PLA | PLP | ROL | ROR | RTI | RTS | SBC | SEC | SED | SEI | STA
  | STX | STY | TAX | TAY | TSX | TXA | TXS | TYA
deriving DecidableEq, Repr

/-- The addressing modes of cpu.rs (`AddressingMode`). -/
inductive AddressingMode where
  | Accumulator
  | Immediate
  | ZeroPage
  | ZeroPageX
  | ZeroPageY
  | Relative
  | Absolute
  | AbsoluteX
  | AbsoluteY
  | Indirect
  | IndirectX
  | IndirectY
  | NoneAddressing
deriving DecidableEq, Repr

/-- One row of the dispatch table (`Opcode` in opcode.rs). -/
structure Opcode where
  code : Nat
  instruction : Instruction
  bytes : Nat
  cycles : Nat
  addressing_mode : AddressingMode
deriving DecidableEq, Repr

/-- Opcode::new -/
def Opcode.new (code : Nat) (instruction : Instruction) (bytes : Nat)
    (cycles : Nat) (addressing_mode : AddressingMode) : Opcode :=
  { code := code, instruction := instruction, bytes := bytes,
    cycles := cycles, addressing_mode := addressing_mode }

/-- The opcode list of create_opcodes_map in opcode.rs, in source order.
It contains exactly the official 6502 opcodes; no unofficial opcode
(LAX, SAX, DCP, ISC, RLA, RRA, SLO, SRE, ALR, ANC, ARR, AXS, SKB, IGN)
appears. -/
def opcode_list : List Opcode := [
  Opcode.new 0x69 Instruction.ADC 2 2 AddressingMode.Immediate,
  Opcode.new 0x65 Instruction.ADC 2 3 AddressingMode.ZeroPage,
  Opcode.new 0x75 Instruction.ADC 2 4 AddressingMode.ZeroPageX,
  Opcode.new 0x6d Instruction.ADC 3 4 AddressingMode.Absolute,
  Opcode.new 0x7d Instruction.ADC 3 4 AddressingMode.AbsoluteX,
  Opcode.new 0x79 Instruction.ADC 3 4 AddressingMode.AbsoluteY,
  Opcode.new 0x61 Instruction.ADC 2 6 AddressingMode.IndirectX,
  Opcode.new 0x71 Instruction.ADC 2 5 AddressingMode.IndirectY,
  Opcode.new 0x29 Instruction.AND 2 2 AddressingMode.Immediate,
  Opcode.new 0x25 Instruction.AND 2 3 AddressingMode.ZeroPage,
  Opcode.new 0x35 Instruction.AND 2 4 AddressingMode.ZeroPageX,
  Opcode.new 0x2d Instruction.AND 3 4 AddressingMode.Absolute,
  Opcode.new 0x3d Instruction.AND 3 4 AddressingMode.AbsoluteX,
  Opcode.new 0x39 Instruction.AND 3 4 AddressingMode.AbsoluteY,
  Opcode.new 0x21 Instruction.AND 2 6 AddressingMode.IndirectX,
  Opcode.new 0x31 Instruction.AND 2 5 AddressingMode.IndirectY,
  Opcode.new 0x0a Instruction.ASL 1 2 AddressingMode.Accumulator,
  Opcode.new 0x06 Instruction.ASL 2 5 AddressingMode.ZeroPage,
  Opcode.new 0x16 Instruction.ASL 2 6 AddressingMode.ZeroPageX,
  Opcode.new 0x0e Instruction.ASL 3 6 AddressingMode.Absolute,
  Opcode.new 0x1e Instruction.ASL 3 7 AddressingMode.AbsoluteX,
  Opcode.new 0x90 Instruction.BCC 2 2 AddressingMode.Relative,
  Opcode.new 0xb0 Instruction.BCS 2 2 AddressingMode.Relative,
  Opcode.new 0xf0 Instruction.BEQ 2 2 AddressingMode.Relative,
  Opcode.new 0x24 Instruction.BIT 2 3 AddressingMode.ZeroPage,
  Opcode.new 0x2c Instruction.BIT 3 4 AddressingMode.Absolute,
  Opcode.new 0x30 Instruction.BMI 2 2 AddressingMode.Relative,
  Opcode.new 0xd0 Instruction.BNE 2 2 AddressingMode.Relative,
  Opcode.new 0x10 Instruction.BPL 2 2 AddressingMode.Relative,
  Opcode.new 0x00 Instruction.BRK 1 7 AddressingMode.NoneAddressing,
  Opcode.new 0x50 Instruction.BVC 2 2 AddressingMode.Relative,
  Opcode.new 0x70 Instruction.BVS 2 2 AddressingMode.Relative,
  Opcode.new 0x18 Instruction.CLC 1 2 AddressingMode.NoneAddressing,
  Opcode.new 0xd8 Instruction.CLD 1 2 AddressingMode.NoneAddressing,
  Opcode.new 0x58 Instruction.CLI 1 2 AddressingMode.NoneAddressing,
  Opcode.new 0xb8 Instruction.CLV 1 2 AddressingMode.NoneAddressing,
  Opcode.new 0xc9 Instruction.CMP 2 2 AddressingMode.Immediate,
  Opcode.new 0xc5 Instruction.CMP 2 3 AddressingMode.ZeroPage,
  Opcode.new 0xd5 Instruction.CMP 2 4 AddressingMode.ZeroPageX,
  Opcode.new 0xcd Instruction.CMP 3 4 AddressingMode.Absolute,
  Opcode.new 0xdd Instruction.CMP 3 4 AddressingMode.AbsoluteX,
  Opcode.new 0xd9 Instruction.CMP 3 4 AddressingMode.AbsoluteY,
  Opcode.new 0xc1 Instruction.CMP 2 6 AddressingMode.IndirectX,
  Opcode.new 0xd1 Instruction.CMP 2 5 AddressingMode.IndirectY,
  Opcode.new 0xe0 Instruction.CPX 2 2 AddressingMode.Immediate,
  Opcode.new 0xe4 Instruction.CPX 2 3 AddressingMode.ZeroPage,
  Opcode.new 0xec Instruction.CPX 3 4 AddressingMode.Absolute,
  Opcode.new 0xc0 Instruction.CPY 2 2 AddressingMode.Immediate,
  Opcode.new 0xc4 Instruction.CPY 2 3 AddressingMode.ZeroPage,
  Opcode.new 0xcc Instruction.CPY 3 4 AddressingMode.Absolute,
  Opcode.new 0xc6 Instruction.DEC 2 5 AddressingMode.ZeroPage,
  Opcode.new 0xd6 Instruction.DEC 2 6 AddressingMode.ZeroPageX,
  Opcode.new 0xce Instruction.DEC 3 6 AddressingMode.Absolute,
  Opcode.new 0xde Instruction.DEC 3 7 AddressingMode.AbsoluteX,
  Opcode.new 0xca Instruction.DEX 1 2 AddressingMode.NoneAddressing,
  Opcode.new 0x88 Instruction.DEY 1 2 AddressingMode.NoneAddressing,
  Opcode.new 0x49 Instruction.EOR 2 2 AddressingMode.Immediate,
  Opcode.new 0x45 Instruction.EOR 2 3 AddressingMode.ZeroPage,
  Opcode.new 0x55 Instruction.EOR 2 4 AddressingMode.ZeroPageX,
  Opcode.new 0x4d Instruction.EOR 3 4 AddressingMode.Absolute,
  Opcode.new 0x5d Instruction.EOR 3 4 AddressingMode.AbsoluteX,
  Opcode.new 0x59 Instruction.EOR 3 4 AddressingMode.AbsoluteY,
  Opcode.new 0x41 Instruction.EOR 2 6 AddressingMode.IndirectX,
  Opcode.new 0x51 Instruction.EOR 2 5 AddressingMode.IndirectY,
  Opcode.new 0xe6 Instruction.INC 2 5 AddressingMode.ZeroPage,
  Opcode.new 0xf6 Instruction.INC 2 6 AddressingMode.ZeroPageX,
  Opcode.new 0xee Instruction.INC 3 6 AddressingMode.Absolute,
  Opcode.new 0xfe Instruction.INC 3 7 AddressingMode.AbsoluteX,
  Opcode.new 0xe8 Instruction.INX 1 2 AddressingMode.NoneAddressing,
  Opcode.new 0xc8 Instruction.INY 1 2 AddressingMode.NoneAddressing,
  Opcode.new 0x4c Instruction.JMP 3 3 AddressingMode.Absolute,
  Opcode.new 0x6c Instruction.JMP 3 5 AddressingMode.Indirect,
  Opcode.new 0x20 Instruction.JSR 3 6 AddressingMode.Absolute,
  Opcode.new 0xa9 Instruction.LDA 2 2 AddressingMode.Immediate,
  Opcode.new 0xa5 Instruction.LDA 2 3 AddressingMode.ZeroPage,
  Opcode.new 0xb5 Instruction.LDA 2 4 AddressingMode.ZeroPageX,
  Opcode.new 0xad Instruction.LDA 3 4 AddressingMode.Absolute,
  Opcode.new 0xbd Instruction.LDA 3 4 AddressingMode.AbsoluteX,
  Opcode.new 0xb9 Instruction.LDA 3 4 AddressingMode.AbsoluteY,
  Opcode.new 0xa1 Instruction.LDA 2 6 AddressingMode.IndirectX,
  Opcode.new 0xb1 Instruction.LDA 2 5 AddressingMode.IndirectY,
  Opcode.new 0xa2 Instruction.LDX 2 2 AddressingMode.Immediate,
  Opcode.new 0xa6 Instruction.LDX 2 3 AddressingMode.ZeroPage,
  Opcode.new 0xb6 Instruction.LDX 2 4 AddressingMode.ZeroPageY,
  Opcode.new 0xae Instruction.LDX 3 4 AddressingMode.Absolute,
  Opcode.new 0xbe Instruction.LDX 3 4 AddressingMode.AbsoluteY,
  Opcode.new 0xa0 Instruction.LDY 2 2 AddressingMode.Immediate,
  Opcode.new 0xa4 Instruction.LDY 2 3 AddressingMode.ZeroPage,
  Opcode.new 0xb4 Instruction.LDY 2 4 AddressingMode.ZeroPageX,
  Opcode.new 0xac Instruction.LDY 3 4 AddressingMode.Absolute,
  Opcode.new 0xbc Instruction.LDY 3 4 AddressingMode.AbsoluteX,
  Opcode.new 0x4a Instruction.LSR 1 2 AddressingMode.Accumulator,
  Opcode.new 0x46 Instruction.LSR 2 5 AddressingMode.ZeroPage,
  Opcode.new 0x56 Instruction.LSR 2 6 AddressingMode.ZeroPageX,
  Opcode.new 0x4e Instruction.LSR 3 6 AddressingMode.Absolute,
  Opcode.new 0x5e Instruction.LSR 3 7 AddressingMode.AbsoluteX,
  Opcode.new 0xea Instruction.NOP 1 2 AddressingMode.NoneAddressing,
  Opcode.new 0x09 Instruction.ORA 2 2 AddressingMode.Immediate,
  Opcode.new 0x05 Instruction.ORA 2 3 AddressingMode.ZeroPage,
  Opcode.new 0x15 Instruction.ORA 2 4 AddressingMode.ZeroPageX,
  Opcode.new 0x0d Instruction.ORA 3 4 AddressingMode.Absolute,
  Opcode.new 0x1d Instruction.ORA 3 4 AddressingMode.AbsoluteX,
  Opcode.new 0x19 Instruction.ORA 3 4 AddressingMode.AbsoluteY,
  Opcode.new 0x01 Instruction.ORA 2 6 AddressingMode.IndirectX,
  Opcode.new 0x11 Instruction.ORA 2 5 AddressingMode.IndirectY,
  Opcode.new 0x48 Instruction.PHA 1 3 AddressingMode.NoneAddressing,
  Opcode.new 0x08 Instruction.PHP 1 3 AddressingMode.NoneAddressing,
  Opcode.new 0x68 Instruction.PLA 1 4 AddressingMode.NoneAddressing,
  Opcode.new 0x28 Instruction.PLP 1 4 AddressingMode.NoneAddressing,
  Opcode.new 0x2a Instruction.ROL 1 2 AddressingMode.Accumulator,
  Opcode.new 0x26 Instruction.ROL 2 5 AddressingMode.ZeroPage,
  Opcode.new 0x36 Instruction.ROL 2 6 AddressingMode.ZeroPageX,
  Opcode.new 0x2e Instruction.ROL 3 6 AddressingMode.Absolute,
  Opcode.new 0x3e Instruction.ROL 3 7 AddressingMode.AbsoluteX,
  Opcode.new 0x6a Instruction.ROR 1 2 AddressingMode.Accumulator,
  Opcode.new 0x66 Instruction.ROR 2 5 AddressingMode.ZeroPage,
  Opcode.new 0x76 Instruction.ROR 2 6 AddressingMode.ZeroPageX,
  Opcode.new 0x6e Instruction.ROR 3 6 AddressingMode.Absolute,
  Opcode.new 0x7e Instruction.ROR 3 7 AddressingMode.AbsoluteX,
  Opcode.new 0x40 Instruction.RTI 1 6 AddressingMode.NoneAddressing,
  Opcode.new 0x60 Instruction.RTS 1 6 AddressingMode.NoneAddressing,
  Opcode.new 0xe9 Instruction.SBC 2 2 AddressingMode.Immediate,
  Opcode.new 0xe5 Instruction.SBC 2 3 AddressingMode.ZeroPage,
  Opcode.new 0xf5 Instruction.SBC 2 4 AddressingMode.ZeroPageX,
  Opcode.new 0xed Instruction.SBC 3 4 AddressingMode.Absolute,
  Opcode.new 0xfd Instruction.SBC 3 4 AddressingMode.AbsoluteX,
  Opcode.new 0xf9 Instruction.SBC 3 4 AddressingMode.AbsoluteY,
  Opcode.new 0xe1 Instruction.SBC 2 6 AddressingMode.IndirectX,
  Opcode.new 0xf1 Instruction.SBC 2 5 AddressingMode.IndirectY,
  Opcode.new 0x38 Instruction.SEC 1 2 AddressingMode.NoneAddressing,
  Opcode.new 0xf8 Instruction.SED 1 2 AddressingMode.NoneAddressing,
  Opcode.new 0x78 Instruction.SEI 1 2 AddressingMode.NoneAddressing,
  Opcode.new 0x85 Instruction.STA 2 3 AddressingMode.ZeroPage,
  Opcode.new 0x95 Instruction.STA 2 4 AddressingMode.ZeroPageX,
  Opcode.new 0x8d Instruction.STA 3 4 AddressingMode.Absolute,
  Opcode.new 0x9d Instruction.STA 3 5 AddressingMode.AbsoluteX,
  Opcode.new 0x99 Instruction.STA 3 5 AddressingMode.AbsoluteY,
  Opcode.new 0x81 Instruction.STA 2 6 AddressingMode.IndirectX,
  Opcode.new 0x91 Instruction.STA 2 6 AddressingMode.IndirectY,
  Opcode.new 0x86 Instruction.STX 2 3 AddressingMode.ZeroPage,
  Opcode.new 0x96 Instruction.STX 2 4 AddressingMode.ZeroPageY,
  Opcode.new 0x8e Instruction.STX 3 4 AddressingMode.Absolute,
  Opcode.new 0x84 Instruction.STY 2 3 AddressingMode.ZeroPage,
  Opcode.new 0x94 Instruction.STY 2 4 AddressingMode.ZeroPageX,
  Opcode.new 0x8c Instruction.STY 3 4 AddressingMode.Absolute,
  Opcode.new 0xaa Instruction.TAX 1 2 AddressingMode.NoneAddressing,
  Opcode.new 0xa8 Instruction.TAY 1 2 AddressingMode.NoneAddressing,
  Opcode.new 0xba Instruction.TSX 1 2 AddressingMode.NoneAddressing,
  Opcode.new 0x8a Instruction.TXA 1 2 AddressingMode.NoneAddressing,
  Opcode.new 0x9a Instruction.TXS 1 2 AddressingMode.NoneAddressing,
  Opcode.new 0x98 Instruction.TYA 1 2 AddressingMode.NoneAddressing]

/-- create_opcodes_map: the HashMap from opcode byte to row, embedded as an
association list (all 151 codes are distinct, so lookup agrees with the
HashMap). -/
def create_opcodes_map : List (Nat × Opcode) :=
  opcode_list.map fun opcode => (opcode.code, opcode)

/-- Lookup in the opcode map, as `self.opcodes.get(&code)` does in
Cpu::run_with_callback; a `none` result is the `expect("... is not
recognized")` panic, i.e. the unknown-opcode failure. -/
def opcodes_map_get (code : Nat) : Option Opcode :=
  List.lookup code create_opcodes_map

/-- Total number of PPU cycles represented by the (scanline, cycles) cursor:
each completed scanline is 341 PPU cycles.  Observer used to measure how far
a tick advanced the PPU. -/
def Ppu.totalDots (p : Ppu) : Nat :=
  341 * p.scanline + p.cycles

/-- What Ppu::read_data does in each address region, phrased against the
memory the source actually touches.  Used to state the (amended) buffered
read property. -/
def ReadDataSpec (ppu : Ppu) (a stride : Nat) : Prop :=
  (∀ v, a ≤ 0x1fff → ppu.charactor_rom.get? a = some v →
    ∃ p, Ppu.read_data ppu = some (ppu.internal_data_buf, p) ∧
      p.internal_data_buf = v ∧
      p.register.ppu_address.get = (a + stride) % 0x4000) ∧
  (∀ v, 0x2000 ≤ a → a ≤ 0x2fff → ppu.vram.get? (ppu.mirror_vram_address a) = some v →
    ∃ p, Ppu.read_data ppu = some (ppu.internal_data_buf, p) ∧
      p.internal_data_buf = v ∧
      p.register.ppu_address.get = (a + stride) % 0x4000) ∧
  (0x3000 ≤ a → a ≤ 0x3eff → Ppu.read_data ppu = none) ∧
  (∀ v, 0x3f00 ≤ a → a ≤ 0x3fff → ppu.palette_table.get? (a - 0x3f00) = some v →
    ∃ p, Ppu.read_data ppu = some (v, p) ∧
      p.internal_data_buf = ppu.internal_data_buf ∧
      p.register.ppu_address.get = (a + stride) % 0x4000) ∧
  (0x3f20 ≤ a → a ≤ 0x3fff → ppu.palette_table.size = 0x20 → Ppu.read_data ppu = none)

/-- A freshly constructed PPU over an 8 KiB character ROM of zeros. -/
def ppu0 : Ppu := Ppu.new (List.replicate 0x2000 0) Mirroring.Horizontal

/-- A bus in its initial state over `ppu0` and a 32 KiB program of zeros
(the state Bus::new builds from a zero-filled NROM cartridge). -/
def bus0 : Bus :=
  { wram := mkArray 0x800 0, ppu := ppu0, program := List.replicate 0x8000 0, cycles := 0 }

/-- A bus whose PPU has NMI generation enabled in the control register but
no latched NMI (`nmi_interrupt = false`): reachable by writing 0x80 to
0x2000 outside vblank. -/
def busC1 : Bus :=
  { bus0 with ppu := { ppu0 with register.ppu_control.generate_nmi := true } }

/-- A bus whose PPU is inside vblank and whose address latch points at the
low byte: the state in which a status read should report vblank and reset
the latch. -/
def busC3 : Bus :=
  { bus0 with ppu :=
      { ppu0 with register.ppu_status.vertical_blank := true,
                  register.ppu_address.hi_ptr := false } }

/-- A PPU whose data address is 0x3f20: first palette-mirror address. -/
def ppuC5 : Ppu :=
  { ppu0 with register.ppu_address.value_high := 0x3f,
              register.ppu_address.value_low := 0x20 }

/-- A PPU whose data address is 0x3f10 (the background-palette alias of
0x3f00) with distinct bytes at palette indices 0x10 and 0x00. -/
def ppuC5b : Ppu :=
  { ppu0 with register.ppu_address.value_high := 0x3f,
              register.ppu_address.value_low := 0x10,
              palette_table := ((mkArray 0x20 0).setD 0x10 0xAB).setD 0x00 0xCD }

/-- A PPU whose data address is 0x3f00, whose read buffer holds 7, whose
VRAM is filled with 9 everywhere, and whose palette entry 0 is 0xCD. -/
def ppuC6 : Ppu :=
  { ppu0 with register.ppu_address.value_high := 0x3f,
              internal_data_buf := 7,
              vram := mkArray 0x800 9,
              palette_table := (mkArray 0x20 0).setD 0 0xCD }

/-- The same PPU with data address 0x3000 (the name-table mirror region). -/
def ppuC6b : Ppu :=
  { ppuC6 with register.ppu_address.value_high := 0x30 }

/-- Disjoint bit ranges make or into addition: a shifted value or-ed with a
value below the shift amount is their sum. -/
theorem two_pow_mul_or_add (n a b : Nat) (h : b < 2 ^ n) :
    (2 ^ n * a) ||| b = 2 ^ n * a + b := by
  induction n generalizing b with
  | zero =>
    have hb : b = 0 := by omega
    subst hb
    simp
  | succ n ih =>
    have key : 2 ^ (n + 1) * a = Nat.bit false (2 ^ n * a) := by
      rw [Nat.bit_val, Nat.pow_succ]
      simp
      ring
    have hb2 := Nat.bit_decomp b
    rw [Nat.bit_val, Nat.div2_val] at hb2
    have hlt : b.div2 < 2 ^ n := by
      rw [Nat.div2_val]
      rw [Nat.pow_succ] at h
      omega
    conv_lhs => rw [key, ← Nat.bit_decomp b]
    rw [Nat.lor_bit, ih _ hlt]
    rw [key, Nat.bit_val, Nat.bit_val, Nat.div2_val]
    simp only [Bool.false_or, Bool.toNat_false]
    omega

/-- The address register's 16-bit value, as plain arithmetic, when the low
byte is in range. -/
theorem AddressRegister.get_eq (r : AddressRegister) (hl : r.value_low < 256) :
    r.get = 256 * r.value_high + r.value_low := by
  unfold AddressRegister.get
  rw [Nat.shiftLeft_eq, mul_comm]
  have h := two_pow_mul_or_add 8 r.value_high r.value_low (by omega)
  rw [h]
  norm_num

/-- AddressRegister::set followed by get returns the 14-bit datum. -/
theorem AddressRegister.set_get (r : AddressRegister) (data : Nat) (h : data < 0x4000) :
    (r.set data).get = data := by
  have h3 : data &&& 0xff = data % 256 := by
    have h0 := Nat.and_pow_two_sub_one_eq_mod data 8
    norm_num at h0
    exact h0
  have h1 : (data >>> 8) &&& 0xff = data / 256 := by
    rw [Nat.shiftRight_eq_div_pow]
    have h0 := Nat.and_pow_two_sub_one_eq_mod (data / 2 ^ 8) 8
    norm_num at h0 ⊢
    rw [h0]
    omega
  have hl : (r.set data).value_low < 256 := by
    show data &&& 0xff < 256
    rw [h3]
    omega
  rw [AddressRegister.get_eq _ hl]
  show 256 * ((data >>> 8) &&& 0xff) + (data &&& 0xff) = data
  rw [h1, h3]
  omega

/-- AddressRegister::increment adds the stride to the 14-bit address modulo
0x4000, provided the register is in its u8/14-bit invariant range. -/
theorem AddressRegister.increment_get (r : AddressRegister) (inc : Nat)
    (hh : r.value_high < 0x40) (hl : r.value_low < 0x100) (hi : inc < 0x100) :
    (r.increment inc).get = (r.get + inc) % 0x4000 := by
  have hget := AddressRegister.get_eq r (by omega)
  have hmask : ∀ x : Nat, x &&& 0x3fff = x % 0x4000 := by
    intro x
    have h0 := Nat.and_pow_two_sub_one_eq_mod x 14
    norm_num at h0
    exact h0
  unfold AddressRegister.increment
  dsimp only
  set low2 := (r.value_low + inc) % 256 with hlow2
  by_cases hc : r.value_low > low2
  · rw [if_pos hc]
    have hcarry : r.value_low + inc ≥ 256 := by omega
    set r2 : AddressRegister :=
      { r with value_low := low2, value_high := (r.value_high + 1) % 256 } with hr2
    have hg2 : r2.get = r.get + inc := by
      rw [AddressRegister.get_eq r2 (by show low2 < 256; omega)]
      show 256 * ((r.value_high + 1) % 256) + low2 = r.get + inc
      omega
    by_cases hov : r2.get > 0x3fff
    · rw [if_pos hov, hmask, AddressRegister.set_get _ _ (by omega), hg2]
    · rw [if_neg hov, hg2.symm, Nat.mod_eq_of_lt (by omega)]
  · rw [if_neg hc]
    set r1 : AddressRegister := { r with value_low := low2 } with hr1
    have hg1 : r1.get = r.get + inc := by
      rw [AddressRegister.get_eq r1 (by show low2 < 256; omega)]
      show 256 * r.value_high + low2 = r.get + inc
      omega
    by_cases hov : r1.get > 0x3fff
    · rw [if_pos hov, hmask, AddressRegister.set_get _ _ (by omega), hg1]
    · rw [if_neg hov, hg1.symm, Nat.mod_eq_of_lt (by omega)]

/-- The configured data-address stride is 1 or 32, in particular below 256. -/
theorem ControlRegister.vram_address_increment_lt (c : ControlRegister) :
    c.vram_address_increment < 0x100 := by
  unfold ControlRegister.vram_address_increment
  cases c.vram_add_increment <;> simp

/-- Projection fact: incrementing the data address leaves the character ROM
untouched. -/
theorem Ppu.increment_chr (ppu : Ppu) :
    (ppu.increment_vram_address).charactor_rom = ppu.charactor_rom := rfl

/-- Projection fact: incrementing the data address leaves the VRAM untouched. -/
theorem Ppu.increment_vram (ppu : Ppu) :
    (ppu.increment_vram_address).vram = ppu.vram := rfl

/-- Projection fact: incrementing the data address leaves the palette untouched. -/
theorem Ppu.increment_palette (ppu : Ppu) :
    (ppu.increment_vram_address).palette_table = ppu.palette_table := rfl

/-- Projection fact: incrementing the data address preserves the mirroring
function. -/
theorem Ppu.increment_mirror (ppu : Ppu) (a : Nat) :
    (ppu.increment_vram_address).mirror_vram_address a = ppu.mirror_vram_address a := rfl

/-- C1: the spec claims `poll_nmi` "returns and consumes any pending NMI
latched by the PPU".  The code's Bus::poll_nmi_status returns the
generate-NMI control bit instead: at `busC1` (NMI generation enabled, no NMI
latched) the poll answers true although `nmi_interrupt` — which the unused
Ppu::poll_nmi_interrupt would report — is false; being `&self`, it can
consume nothing. -/
theorem C1_poll_nmi_returns_enable_bit_not_latch :
    Bus.poll_nmi_status busC1 = true ∧
    busC1.ppu.nmi_interrupt = false ∧
    Ppu.poll_nmi_interrupt busC1.ppu = false :=
  ⟨rfl, rfl, rfl⟩

/-- C2 (counterexample): Bus::tick(86) does not advance the PPU by 3·86 = 258
PPU cycles: the u8 product wraps to 2, so from the initial bus state the
scanline/cycle cursor moves 2 dots, not 258. -/
theorem C2_tick_overflow_counterexample :
    ¬ ((Bus.tick bus0 86).ppu.totalDots = bus0.ppu.totalDots + 3 * 86) := by
  decide

/-- C2 (amended): Bus::tick(n) adds n to the bus cycle counter and ticks the
PPU by (3·n mod 256) PPU cycles; the frame-completed flag Ppu::tick returns
is discarded (the Bus has no frame callback).  When no scanline boundary is
crossed the PPU cursor advances by exactly (3·n mod 256) dots and the
scanline and NMI latch are unchanged. -/
theorem C2_tick_amended (b : Bus) (n : Nat) (hn : n < 256) :
    (Bus.tick b n).cycles = b.cycles + n ∧
    (Bus.tick b n).ppu = (Ppu.tick b.ppu ((n * 3) % 256)).2 ∧
    (b.ppu.cycles + (n * 3) % 256 < 341 →
      (Bus.tick b n).ppu.cycles = b.ppu.cycles + (n * 3) % 256 ∧
      (Bus.tick b n).ppu.scanline = b.ppu.scanline ∧
      (Bus.tick b n).ppu.nmi_interrupt = b.ppu.nmi_interrupt) := by
  refine ⟨rfl, rfl, fun h => ?_⟩
  unfold Bus.tick Ppu.tick
  dsimp only
  rw [if_neg (by omega)]
  exact ⟨rfl, rfl, rfl⟩

/-- C2 (witness): the amended tick property evaluated at the initial bus
state with n = 1. -/
theorem C2_tick_amended_witness :
    (1 < 256) ∧
    ((Bus.tick bus0 1).cycles = bus0.cycles + 1 ∧
     (Bus.tick bus0 1).ppu = (Ppu.tick bus0.ppu ((1 * 3) % 256)).2 ∧
     (bus0.ppu.cycles + (1 * 3) % 256 < 341 →
       (Bus.tick bus0 1).ppu.cycles = bus0.ppu.cycles + (1 * 3) % 256 ∧
       (Bus.tick bus0 1).ppu.scanline = bus0.ppu.scanline ∧
       (Bus.tick bus0 1).ppu.nmi_interrupt = bus0.ppu.nmi_interrupt)) :=
  ⟨by decide, C2_tick_amended bus0 1 (by decide)⟩

/-- C3 (counterexample): at `busC3` the PPU is in vblank and the address
latch points low, yet reading 0x2002 yields 0 (not a status byte with bit 7
set), leaves vblank set and leaves the latch pointing low — address 0x2002
falls through to the unmapped-read arm. -/
theorem C3_status_read_counterexample :
    Bus.read_memory_byte busC3 0x2002 = some (0, busC3) ∧
    busC3.ppu.register.ppu_status.vertical_blank = true ∧
    busC3.ppu.register.ppu_address.hi_ptr = false :=
  ⟨rfl, rfl, rfl⟩

/-- C3 (amended): for every bus state, a CPU read of 0x2002 returns 0 and
has no side effect at all: the status register is never surfaced, vblank is
not cleared and the write latch is not reset. -/
theorem C3_status_read_amended (b : Bus) :
    Bus.read_memory_byte b 0x2002 = some (0, b) := rfl

/-- C4 (counterexample): reading the write-only control register address
0x2000 panics (none) instead of returning 0. -/
theorem C4_write_only_read_counterexample :
    Bus.read_memory_byte bus0 0x2000 = none := rfl

/-- C4 (amended): for every bus state, byte reads of the write-only PPU
register addresses 0x2000, 0x2001, 0x2003, 0x2005, 0x2006 (and of 0x4014)
are fatal: the match arm panics, modelled as `none`. -/
theorem C4_write_only_read_amended (b : Bus) :
    Bus.read_memory_byte b 0x2000 = none ∧
    Bus.read_memory_byte b 0x2001 = none ∧
    Bus.read_memory_byte b 0x2003 = none ∧
    Bus.read_memory_byte b 0x2005 = none ∧
    Bus.read_memory_byte b 0x2006 = none ∧
    Bus.read_memory_byte b 0x4014 = none :=
  ⟨rfl, rfl, rfl, rfl, rfl, rfl⟩

/-- C5: the palette arm indexes `palette_table[address - 0x3f00]` with no
modulo-0x20 reduction and no aliasing.  At internal address 0x3f20 both the
data read and the data write index out of bounds and panic (none); at
0x3f10 the read returns palette byte 0x10 (0xAB), not its claimed alias
0x00 (0xCD). -/
theorem C5_palette_access_faults :
    Ppu.read_data ppuC5 = none ∧
    Ppu.write_to_data ppuC5 0 = none ∧
    (Ppu.read_data ppuC5b).map Prod.fst = some 0xAB ∧
    ppuC5b.palette_table.get? 0 = some 0xCD :=
  ⟨rfl, rfl, rfl, rfl⟩

/-- C6 (counterexample): at `ppuC6` the data address is 0x3f00, every VRAM
byte is 9 and the read buffer holds 7.  The palette read returns the fresh
palette byte 0xCD but leaves the buffer at 7 — it is not refilled from any
name-table byte (they are all 9).  At `ppuC6b` the address is 0x3000, which
is below 0x3f00 yet panics instead of performing a buffered read. -/
theorem C6_palette_read_buffer_not_refilled_counterexample :
    ((Ppu.read_data ppuC6).map fun r => (r.1, r.2.internal_data_buf)) = some (0xCD, 7) ∧
    ppuC6.vram = mkArray 0x800 9 ∧
    Ppu.read_data ppuC6b = none :=
  ⟨rfl, rfl, rfl⟩

/-- C6 (amended): Ppu::read_data, with the address register in its invariant
range.  Reads at addresses up to 0x2fff return the previous buffer contents
and refill the buffer from the addressed memory; 0x3000-0x3eff panics;
palette reads (0x3f00 plus an in-range index) return the fresh palette byte
and leave the buffer unchanged; palette-mirror addresses 0x3f20-0x3fff index
out of bounds and panic.  In every non-faulting case the internal address
increments by the configured stride modulo 0x4000. -/
theorem C6_read_data_amended (ppu : Ppu) (a stride : Nat)
    (ha : a = ppu.register.ppu_address.get)
    (hs : stride = ppu.register.ppu_control.vram_address_increment)
    (hh : ppu.register.ppu_address.value_high < 0x40)
    (hl : ppu.register.ppu_address.value_low < 0x100) :
    ReadDataSpec ppu a stride := by
  have hincget :
      (ppu.register.ppu_address.increment ppu.register.ppu_control.vram_address_increment).get
        = (a + stride) % 0x4000 := by
    rw [ha, hs]
    exact AddressRegister.increment_get _ _ hh hl (ControlRegister.vram_address_increment_lt _)
  refine ⟨?_, ?_, ?_, ?_, ?_⟩
  · intro v h1 h2
    unfold Ppu.read_data
    dsimp only
    rw [← ha, if_pos h1, Ppu.increment_chr, h2]
    exact ⟨_, rfl, rfl, hincget⟩
  · intro v h1 h2 h3
    unfold Ppu.read_data
    dsimp only
    rw [← ha, if_neg (by omega), if_pos h2, Ppu.increment_mirror, Ppu.increment_vram, h3]
    exact ⟨_, rfl, rfl, hincget⟩
  · intro h1 h2
    unfold Ppu.read_data
    dsimp only
    rw [← ha, if_neg (by omega), if_neg (by omega), if_pos h2]
  · intro v h1 h2 h3
    unfold Ppu.read_data
    dsimp only
    rw [← ha, if_neg (by omega), if_neg (by omega), if_neg (by omega), if_pos h2,
      Ppu.increment_palette, h3]
    exact ⟨_, rfl, rfl, hincget⟩
  · intro h1 h2 h3
    unfold Ppu.read_data
    dsimp only
    have hnone : ppu.palette_table.get? (a - 0x3f00) = none := by
      rw [Array.get?_eq_getElem?]
      apply Array.getElem?_len_le
      omega
    rw [← ha, if_neg (by omega), if_neg (by omega), if_neg (by omega), if_pos h2,
      Ppu.increment_palette, hnone]

/-- C6 (witness): the amended read property evaluated at `ppuC6` (palette
address 0x3f00, stride 1). -/
theorem C6_read_data_amended_witness :
    (0x3f00 = ppuC6.register.ppu_address.get ∧
     1 = ppuC6.register.ppu_control.vram_address_increment ∧
     ppuC6.register.ppu_address.value_high < 0x40 ∧
     ppuC6.register.ppu_address.value_low < 0x100) ∧
    ReadDataSpec ppuC6 0x3f00 1 :=
  ⟨⟨by decide, by decide, by decide, by decide⟩,
   C6_read_data_amended ppuC6 0x3f00 1 (by decide) (by decide) (by decide) (by decide)⟩

/-- C7 (counterexample): a 16-byte input of zeros has magic 00 00 00 00, not
4E 45 53 1A, yet Rom::new accepts it and returns a Rom. -/
theorem C7_bad_magic_accepted_counterexample :
    (Rom.new (List.replicate 16 0)).isSome = true ∧
    (List.replicate 16 0).take 4 ≠ [0x4e, 0x45, 0x53, 0x1a] := by
  decide

/-- C7 (amended): Rom::new validates nothing: for any input of at least 16
bytes it succeeds exactly when the input is long enough for the
header-declared program and character sizes — the magic bytes and the mapper
play no role, and a truncated payload panics (none) instead of returning a
typed error. -/
theorem C7_rom_new_no_validation (data : List Nat) (h : 16 ≤ data.length) :
    (Rom.new data).isSome = true ↔
      16 + 0x4000 * data.getD 4 0 + 0x2000 * data.getD 5 0 ≤ data.length := by
  have htake : ∀ i : Nat, i < 16 → (data.take 16).getD i 0 = data.getD i 0 := by
    intro i hi
    simp [List.getD, List.getElem?_take, hi]
  unfold Rom.new
  rw [if_neg (by omega)]
  simp only [Header.new]
  rw [htake 4 (by omega), htake 5 (by omega)]
  split_ifs with h1 h2
  · exact iff_of_false (by simp) (by omega)
  · exact iff_of_false (by simp) (by omega)
  · exact iff_of_true (by simp) (by omega)

/-- C7 (witness): the amended loader property evaluated at the all-zero
16-byte header. -/
theorem C7_rom_new_no_validation_witness :
    (16 ≤ (List.replicate 16 0).length) ∧
    ((Rom.new (List.replicate 16 0)).isSome = true ↔
      16 + 0x4000 * (List.replicate 16 0).getD 4 0
        + 0x2000 * (List.replicate 16 0).getD 5 0 ≤ (List.replicate 16 0).length) :=
  ⟨by decide, C7_rom_new_no_validation (List.replicate 16 0) (by decide)⟩

/-- C8 (counterexample): 0xA7 (LAX zero-page, a documented unofficial
opcode) has no entry in the dispatch map, so executing it hits the
unknown-opcode `expect` panic. -/
theorem C8_unofficial_opcode_missing_counterexample :
    opcodes_map_get 0xa7 = none := by
  decide

/-- C8 (amended): the dispatch table holds exactly the 151 official entries;
none of the documented unofficial opcodes (one representative byte per
family: LAX 0xA7, SAX 0x87, DCP 0xC7, ISC 0xE7, RLA 0x27, RRA 0x67,
SLO 0x07, SRE 0x47, ALR 0x4B, ANC 0x0B, ARR 0x6B, AXS 0xCB, SKB 0x80,
IGN 0x04) is present, while official bytes such as 0xA9 are. -/
theorem C8_opcode_table_official_only :
    opcodes_map_get 0xa7 = none ∧
    opcodes_map_get 0x87 = none ∧
    opcodes_map_get 0xc7 = none ∧
    opcodes_map_get 0xe7 = none ∧
    opcodes_map_get 0x27 = none ∧
    opcodes_map_get 0x67 = none ∧
    opcodes_map_get 0x07 = none ∧
    opcodes_map_get 0x47 = none ∧
    opcodes_map_get 0x4b = none ∧
    opcodes_map_get 0x0b = none ∧
    opcodes_map_get 0x6b = none ∧
    opcodes_map_get 0xcb = none ∧
    opcodes_map_get 0x80 = none ∧
    opcodes_map_get 0x04 = none ∧
    create_opcodes_map.length = 151 ∧
    (opcodes_map_get 0xa9).isSome = true := by
  decide

/-- One unfolding of the WRAM arm of Bus::write_memory_byte: a masked
in-range index stores the byte. -/
theorem Bus.write_fuel_wram (fuel : Nat) (b : Bus) (a v : Nat) (ha : a ≤ 0x1fff)
    (hi : a &&& 0x7ff < b.wram.size) :
    Bus.write_memory_byte_fuel (fuel + 1) b a v =
      some { b with wram := b.wram.set ⟨a &&& 0x7ff, hi⟩ v } := by
  unfold Bus.write_memory_byte_fuel
  dsimp only
  rw [if_pos ha, dif_pos hi]

/-- One unfolding of the WRAM arm of Bus::read_memory_byte. -/
theorem Bus.read_fuel_wram (fuel : Nat) (b : Bus) (a : Nat) (ha : a ≤ 0x1fff) :
    Bus.read_memory_byte_fuel (fuel + 1) b a =
      (b.wram.get? (a &&& 0x7ff)).map fun v => (v, b) := by
  unfold Bus.read_memory_byte_fuel
  rw [if_pos ha]

/-- C9: WRAM mirroring round-trip.  Writing v to any address in
0x0000-0x1fff and then reading any address congruent to it modulo 0x800
returns v (and the written bus state is returned unchanged by the read). -/
theorem C9_wram_mirror (b : Bus) (a a' v : Nat) (hw : b.wram.size = 0x800)
    (ha : a ≤ 0x1fff) (ha' : a' ≤ 0x1fff) (hv : v ≤ 0xff)
    (hm : a % 0x800 = a' % 0x800) :
    ∃ b', Bus.write_memory_byte b a v = some b' ∧
      Bus.read_memory_byte b' a' = some (v, b') := by
  have hmask : ∀ x : Nat, x &&& 0x7ff = x % 0x800 := by
    intro x
    have h0 := Nat.and_pow_two_sub_one_eq_mod x 11
    norm_num at h0
    exact h0
  have hi : a &&& 0x7ff < b.wram.size := by
    rw [hmask, hw]
    omega
  have hij : a &&& 0x7ff = a' &&& 0x7ff := by
    rw [hmask, hmask, hm]
  refine ⟨{ b with wram := b.wram.set ⟨a &&& 0x7ff, hi⟩ v }, ?_, ?_⟩
  · exact Bus.write_fuel_wram 1 b a v ha hi
  · show Bus.read_memory_byte_fuel (1 + 1) _ a' = _
    rw [Bus.read_fuel_wram 1 _ a' ha']
    have hg : ({ b with wram := b.wram.set ⟨a &&& 0x7ff, hi⟩ v } : Bus).wram.get?
        (a' &&& 0x7ff) = some v := by
      show (b.wram.set ⟨a &&& 0x7ff, hi⟩ v).get? (a' &&& 0x7ff) = some v
      rw [Array.get?_eq_getElem?, Array.get?_set]
      simp [hij]
    rw [hg]
    rfl

/-- C9 (witness): writing 0x7f at 0x0805 and reading the mirror 0x0005. -/
theorem C9_wram_mirror_witness :
    (bus0.wram.size = 0x800 ∧ 0x0805 ≤ 0x1fff ∧ 0x0005 ≤ 0x1fff ∧ 0x7f ≤ 0xff ∧
      0x0805 % 0x800 = 0x0005 % 0x800) ∧
    (∃ b', Bus.write_memory_byte bus0 0x0805 0x7f = some b' ∧
      Bus.read_memory_byte b' 0x0005 = some (0x7f, b')) :=
  ⟨⟨Array.size_mkArray 0x800 0, by decide, by decide, by decide, by decide⟩,
   C9_wram_mirror bus0 0x0805 0x0005 0x7f (Array.size_mkArray 0x800 0)
     (by decide) (by decide) (by decide) (by decide)⟩

/-- C10: a word read at any address outside 0x0000-0x1ffe and
0x8000-0xfffe — including 0x1fff, 0xffff and the whole PPU register window.
It returns 0 and leaves the bus untouched: the word read has no arm for
these addresses even where a byte read would return data. -/
theorem C10_word_read_out_of_map (b : Bus) (a : Nat)
    (h1 : 0x1fff ≤ a) (h2 : a ≤ 0xffff) (h3 : ¬(0x8000 ≤ a ∧ a ≤ 0xfffe)) :
    Bus.read_memory_word b a = some (0, b) := by
  unfold Bus.read_memory_word
  rw [if_neg (by omega), if_neg h3]

/-- C10 (witness): the word-read property evaluated at 0x2002, an address
whose byte read would access the PPU window. -/
theorem C10_word_read_out_of_map_witness :
    (0x1fff ≤ 0x2002 ∧ 0x2002 ≤ 0xffff ∧ ¬(0x8000 ≤ 0x2002 ∧ 0x2002 ≤ 0xfffe)) ∧
    Bus.read_memory_word bus0 0x2002 = some (0, bus0) :=
  ⟨⟨by decide, by decide, by decide⟩,
   C10_word_read_out_of_map bus0 0x2002 (by decide) (by decide) (by decide)⟩
